import Mathlib

/-!
Shallow embedding of `src/core/config.py` (environment-dependent
configuration resolution for a web application), together with theorems
settling the specification claims about it.

The process environment is modelled as a partial map from variable names
to string values; the filesystem is modelled as the set of existing
directory paths plus an oracle saying which creation attempts fail.
Python exceptions are modelled with `Except`.
-/

/-- The process environment: a partial map from variable name to value.
`os.getenv name` returns `none` when the variable is unset. -/
abbrev Env := String → Option String

/-- Python exceptions that can arise in this module. -/
inductive PyExc where
  | attributeError : PyExc
  | osError : String → PyExc
deriving DecidableEq

/-- Embedding of Python `str.lower()` (character-wise lowercasing). -/
def pyLower (s : String) : String := ⟨s.data.map Char.toLower⟩

/-- Embedding of `_bool_env`: `val = os.getenv(name)`; if unset, the
default; otherwise `val.lower() in {"1", "true", "yes", "on"}`. -/
def _bool_env (env : Env) (name : String) (default : Bool) : Bool :=
  match env name with
  | none => default
  | some val => ["1", "true", "yes", "on"].contains (pyLower val)

/-! ### Python `int()` parsing

`_int_env` calls `int(os.getenv(name, str(default)))`.  Python's `int`
on a string strips surrounding whitespace, accepts one optional sign,
and then a nonempty run of decimal digits in which single underscores
may appear between digits; anything else raises `ValueError`. -/

/-- Numeric value of a decimal digit character. -/
def digitVal (c : Char) : Nat := c.toNat - 48

/-- Consume the remainder of a Python decimal digit-part after its first
digit: each following character is a digit, or one underscore that must
be followed by a digit. Returns the accumulated value, or `none`. -/
def digitsAux : Nat → List Char → Option Nat
  | acc, [] => some acc
  | acc, c :: cs =>
    if c.isDigit then digitsAux (10 * acc + digitVal c) cs
    else if c = '_' then
      match cs with
      | [] => none
      | d :: cs2 => if d.isDigit then digitsAux (10 * acc + digitVal d) cs2 else none
    else none

/-- Parse a Python digit-part: a nonempty digit run with optional single
underscores between digits. -/
def parseDigitpart : List Char → Option Nat
  | [] => none
  | c :: cs => if c.isDigit then digitsAux (digitVal c) cs else none

/-- Strip leading and trailing whitespace, as Python `int()` does before
parsing. -/
def pyTrim (cs : List Char) : List Char :=
  ((cs.dropWhile Char.isWhitespace).reverse.dropWhile Char.isWhitespace).reverse

/-- Embedding of Python `int(s)` on a string: `some k` when parsing
succeeds, `none` when `ValueError` would be raised. -/
def pyInt (s : String) : Option Int :=
  match pyTrim s.data with
  | '+' :: rest => (parseDigitpart rest).map (fun n => (n : Int))
  | '-' :: rest => (parseDigitpart rest).map (fun n => -(n : Int))
  | rest => (parseDigitpart rest).map (fun n => (n : Int))

/-- Fuel-driven loop producing the decimal digits of `n`, most
significant first, in front of the accumulator `acc`. Any fuel
exceeding `n` suffices. -/
def digitsLoop : Nat → Nat → List Char → List Char
  | 0, _, acc => acc
  | fuel + 1, n, acc =>
    let d := Char.ofNat (48 + n % 10)
    if n < 10 then d :: acc else digitsLoop fuel (n / 10) (d :: acc)

/-- Embedding of Python `str` on a natural number. -/
def pyStrNat (n : Nat) : String := ⟨digitsLoop (n + 1) n []⟩

/-- Embedding of Python `str` on an integer. -/
def pyStrInt : Int → String
  | .ofNat n => pyStrNat n
  | .negSucc n => "-" ++ pyStrNat (n + 1)

/-- Embedding of `_int_env`: parse `os.getenv(name, str(default))` as an
integer, falling back to the default when a `ValueError` (or
`TypeError`) is caught. -/
def _int_env (env : Env) (name : String) (default : Int) : Int :=
  match pyInt ((env name).getD (pyStrInt default)) with
  | some k => k
  | none => default

/-! ### Configuration profiles

`BaseConfig` and its two subclasses read the environment at class-body
evaluation time, so each profile is a function of the environment. -/

/-- `PROJECT_ROOT = Path(__file__).resolve().parent.parent`: the
directory containing the `core` package. The concrete location is
irrelevant to the claims; a fixed absolute path stands in for it. -/
def PROJECT_ROOT : String := "/project/src"

/-- Path join (`/` on `pathlib.Path`). -/
def pathJoin (a b : String) : String := a ++ "/" ++ b

/-- The flat record of settings exposed by a configuration class. -/
structure Config where
  ALLOWED_EXTENSIONS : List String
  BASE_DIR : String
  DATA_DIR : String
  MODEL_DIR : String
  MODEL_PATH : String
  UPLOAD_FOLDER : String
  DEBUG : Bool
  MAX_CONTENT_LENGTH : Int
  SECRET_KEY : String
  SESSION_COOKIE_SECURE : Bool
  REMEMBER_COOKIE_SECURE : Bool
  SQLALCHEMY_TRACK_MODIFICATIONS : Bool
  CURRENCY : String
  SQLALCHEMY_DATABASE_URI : Option String
deriving DecidableEq

/-- Embedding of the `BaseConfig` class body. -/
def BaseConfig (env : Env) : Config :=
  let base_dir := PROJECT_ROOT
  let data_dir := pathJoin base_dir "data"
  let model_dir := pathJoin (pathJoin base_dir "ml") "models"
  { ALLOWED_EXTENSIONS := ["csv"]
    BASE_DIR := base_dir
    DATA_DIR := data_dir
    MODEL_DIR := model_dir
    MODEL_PATH := (env "MODEL_PATH").getD (pathJoin model_dir "insurance_model.joblib")
    UPLOAD_FOLDER := pathJoin data_dir "uploads"
    DEBUG := _bool_env env "FLASK_DEBUG" false
    MAX_CONTENT_LENGTH := _int_env env "MAX_CONTENT_LENGTH" (10 * 1024 * 1024)
    SECRET_KEY := (env "SECRET_KEY").getD "dev-key-change-in-prod"
    SESSION_COOKIE_SECURE := true
    REMEMBER_COOKIE_SECURE := true
    SQLALCHEMY_TRACK_MODIFICATIONS := false
    CURRENCY := (env "CURRENCY").getD "USD"
    SQLALCHEMY_DATABASE_URI := none }

/-- Embedding of the `DevelopmentConfig` class body (overrides on top of
`BaseConfig`). -/
def DevelopmentConfig (env : Env) : Config :=
  { BaseConfig env with
    DEBUG := true
    SESSION_COOKIE_SECURE := false
    REMEMBER_COOKIE_SECURE := false
    SQLALCHEMY_DATABASE_URI := some ("sqlite:///" ++ pathJoin PROJECT_ROOT "db_dev.sqlite3") }

/-- Embedding of the `ProductionConfig` class body (overrides on top of
`BaseConfig`). -/
def ProductionConfig (env : Env) : Config :=
  { BaseConfig env with
    DEBUG := false
    SESSION_COOKIE_SECURE := true
    REMEMBER_COOKIE_SECURE := true
    SQLALCHEMY_DATABASE_URI := some ("sqlite:///" ++ pathJoin PROJECT_ROOT "db_prod.sqlite3") }

/-- Identity of a configuration class appearing in the registry. -/
inductive ConfigClass where
  | development : ConfigClass
  | production : ConfigClass
deriving DecidableEq

/-- The settings carried by each configuration class. -/
def configOf : ConfigClass → Env → Config
  | .development, env => DevelopmentConfig env
  | .production, env => ProductionConfig env

/-- Embedding of the `config_by_name` registry. -/
def config_by_name : List (String × ConfigClass) :=
  [("default", .development), ("development", .development), ("production", .production)]

/-- The registry's `"default"` entry (`config_by_name["default"]`). -/
def defaultEntry : ConfigClass := (config_by_name.lookup "default").getD .development

/-! ### Filesystem model and `ensure_dirs` -/

/-- Filesystem state: existing directory paths, plus an oracle telling
which paths a creation attempt fails on (permissions and the like). -/
structure FS where
  existing : List String
  failing : String → Bool

/-- `p.mkdir(parents=True, exist_ok=True)`: the path and its ancestors. -/
def pathPrefixes (p : String) : List String :=
  let parts := p.splitOn "/"
  (List.range parts.length).map (fun i => String.intercalate "/" (parts.take (i + 1)))

/-- One `p.mkdir(parents=True, exist_ok=True)` call: succeeds silently
on a pre-existing path, raises `OSError` on a failing path, and
otherwise records the path and its ancestors as existing. -/
def mkdir_p (fs : FS) (p : String) : Except PyExc FS :=
  if p ∈ fs.existing then .ok fs
  else if fs.failing p then .error (.osError p)
  else .ok { fs with existing := pathPrefixes p ++ fs.existing }

/-- The directories `ensure_dirs` iterates over:
`{cls.MODEL_DIR, cls.DATA_DIR, cls.UPLOAD_FOLDER}`. -/
def requiredDirs (c : Config) : List String := [c.MODEL_DIR, c.DATA_DIR, c.UPLOAD_FOLDER]

/-- Embedding of `BaseConfig.ensure_dirs`: try to create each required
directory, catching every exception and logging it instead. Returns the
new filesystem state and the list of logged failure messages. -/
def ensure_dirs (c : Config) (fs : FS) : FS × List String :=
  (requiredDirs c).foldl
    (fun st p =>
      match mkdir_p st.1 p with
      | .ok fs2 => (fs2, st.2)
      | .error _ => (st.1, st.2 ++ ["Failed to create directory " ++ p]))
    (fs, [])

/-- The warning logged by the production safety check. -/
def secretWarning : String :=
  "SECRET_KEY is using the development default in production. Set SECRET_KEY in environment."

/-- Embedding of `ProductionConfig.ensure_production_safety`, as invoked
on a configuration class: the production class logs the warning when its
secret key is the insecure default (the fail-fast raise is commented
out); the development class has no such attribute, so calling it raises
`AttributeError`. -/
def ensure_production_safety (cls : ConfigClass) (env : Env) : Except PyExc (List String) :=
  match cls with
  | .production =>
      .ok (if (ProductionConfig env).SECRET_KEY = "dev-key-change-in-prod"
           then [secretWarning] else [])
  | .development => .error .attributeError

/-! ### `get_config` -/

/-- Python `x or y` on an optional string and a fallback: `None` and the
empty string are falsy. -/
def pyOr (a : Option String) (b : String) : String :=
  match a with
  | none => b
  | some s => if s = "" then b else s

/-- The lookup key computed by `get_config`:
`(name or os.getenv("FLASK_ENV") or "default").lower()`. -/
def configKey (name : Option String) (env : Env) : String :=
  pyLower (pyOr name (pyOr (env "FLASK_ENV") "default"))

/-- The configuration class `get_config` resolves:
`config_by_name.get(key, config_by_name["default"])`. -/
def resolveClass (name : Option String) (env : Env) : ConfigClass :=
  (config_by_name.lookup (configKey name env)).getD defaultEntry

/-- The outcome of a successful `get_config` call: the resolved class,
the filesystem state after `ensure_dirs`, the directory-failure log
messages, and the safety-check warning messages. -/
structure ResolveResult where
  cfg : ConfigClass
  fs : FS
  dirLogs : List String
  warnLogs : List String

/-- Embedding of `get_config`: compute the key, resolve the class,
ensure its directories, and for the `"production"` key run the safety
check with `AttributeError` caught and ignored. -/
def get_config (name : Option String) (env : Env) (fs : FS) : Except PyExc ResolveResult :=
  let key := configKey name env
  let cfg := resolveClass name env
  let ed := ensure_dirs (configOf cfg env) fs
  if key = "production" then
    match ensure_production_safety cfg env with
    | .ok warns => .ok ⟨cfg, ed.1, ed.2, warns⟩
    | .error .attributeError => .ok ⟨cfg, ed.1, ed.2, []⟩
    | .error e => .error e
  else
    .ok ⟨cfg, ed.1, ed.2, []⟩

/-- An environment with every variable unset. -/
def emptyEnv : Env := fun _ => none

/-- A pristine filesystem on which every creation attempt succeeds. -/
def fs0 : FS := ⟨[], fun _ => false⟩

/-- A filesystem in which the development profile's directories already
exist and every creation attempt succeeds. -/
def fsDevDirs : FS :=
  ⟨["/project/src/ml/models", "/project/src/data", "/project/src/data/uploads"],
   fun _ => false⟩

/-! ### Round-trip: `pyInt (pyStrInt d) = some d`

Needed because `_int_env` parses `str(default)` when the variable is
unset. -/

/-- The ten decimal digit characters. -/
def digits10 : List Char := ['0', '1', '2', '3', '4', '5', '6', '7', '8', '9']

/-- Decimal value of a digit list, most significant first. -/
def digitsVal (ds : List Char) : Nat := ds.foldl (fun a c => 10 * a + digitVal c) 0

theorem digits10_isDigit : ∀ c ∈ digits10, c.isDigit = true := by decide

theorem digits10_not_ws : ∀ c ∈ digits10, c.isWhitespace = false := by decide

theorem digitChar_mem (m : Nat) (h : m < 10) : Char.ofNat (48 + m) ∈ digits10 := by
  interval_cases m <;> decide

theorem digitChar_val (m : Nat) (h : m < 10) : digitVal (Char.ofNat (48 + m)) = m := by
  interval_cases m <;> decide

theorem digitsAux_digits (ds : List Char) :
    ∀ acc, (∀ c ∈ ds, c.isDigit = true) →
      digitsAux acc ds = some (ds.foldl (fun a c => 10 * a + digitVal c) acc) := by
  induction ds with
  | nil => intro acc _; rfl
  | cons c cs ih =>
      intro acc h
      have hc : c.isDigit = true := h c (List.mem_cons_self c cs)
      have hstep : digitsAux acc (c :: cs) = digitsAux (10 * acc + digitVal c) cs := by
        rw [digitsAux.eq_def]; simp [hc]
      rw [hstep, List.foldl_cons]
      exact ih _ (fun x hx => h x (List.mem_cons_of_mem c hx))

theorem parseDigitpart_digits (ds : List Char) (hne : ds ≠ [])
    (h : ∀ c ∈ ds, c.isDigit = true) :
    parseDigitpart ds = some (digitsVal ds) := by
  cases ds with
  | nil => exact absurd rfl hne
  | cons c cs =>
      have hc : c.isDigit = true := h c (List.mem_cons_self c cs)
      simp only [parseDigitpart, hc, if_true, digitsVal, List.foldl_cons]
      have : (10 * 0 + digitVal c) = digitVal c := by omega
      rw [this]
      exact digitsAux_digits cs _ (fun x hx => h x (List.mem_cons_of_mem c hx))

theorem digitsLoop_acc (fuel : Nat) :
    ∀ (n : Nat) (acc : List Char), digitsLoop fuel n acc = digitsLoop fuel n [] ++ acc := by
  induction fuel with
  | zero => intro n acc; rfl
  | succ fuel ih =>
      intro n acc
      simp only [digitsLoop]
      split
      · rfl
      · rw [ih (n / 10), ih (n / 10) [Char.ofNat (48 + n % 10)], List.append_assoc]
        rfl

theorem digitsLoop_extra (n : Nat) :
    ∀ f1 f2 acc, n < f1 → n < f2 → digitsLoop f1 n acc = digitsLoop f2 n acc := by
  induction n using Nat.strong_induction_on with
  | _ n ih =>
      intro f1 f2 acc h1 h2
      cases f1 with
      | zero => omega
      | succ g1 =>
          cases f2 with
          | zero => omega
          | succ g2 =>
              simp only [digitsLoop]
              split
              · rfl
              · exact ih (n / 10) (by omega) g1 g2 _ (by omega) (by omega)

theorem digitsLoop_mem (fuel : Nat) :
    ∀ n acc, (∀ c ∈ acc, c ∈ digits10) → ∀ c ∈ digitsLoop fuel n acc, c ∈ digits10 := by
  induction fuel with
  | zero => intro n acc hacc; exact hacc
  | succ fuel ih =>
      intro n acc hacc
      have hd : Char.ofNat (48 + n % 10) ∈ digits10 := digitChar_mem _ (Nat.mod_lt n (by omega))
      have hcons : ∀ c ∈ (Char.ofNat (48 + n % 10) :: acc), c ∈ digits10 := by
        intro c hc
        rcases List.mem_cons.mp hc with h | h
        · exact h ▸ hd
        · exact hacc c h
      simp only [digitsLoop]
      split
      · exact hcons
      · exact ih (n / 10) _ hcons

theorem digitsLoop_ne_nil (n : Nat) : digitsLoop (n + 1) n [] ≠ [] := by
  simp only [digitsLoop]
  split
  · exact List.cons_ne_nil _ _
  · rw [digitsLoop_acc]
    exact fun h => List.cons_ne_nil _ _ (List.append_eq_nil.mp h).2

theorem digitsLoop_val (n : Nat) : digitsVal (digitsLoop (n + 1) n []) = n := by
  induction n using Nat.strong_induction_on with
  | _ n ih =>
      simp only [digitsLoop]
      split
      · rename_i hlt
        simp only [digitsVal, List.foldl_cons, List.foldl_nil]
        rw [digitChar_val _ (Nat.mod_lt n (by omega))]
        omega
      · rename_i hge
        rw [digitsLoop_acc]
        rw [digitsLoop_extra (n / 10) n (n / 10 + 1) [] (by omega) (by omega)]
        simp only [digitsVal, List.foldl_append, List.foldl_cons, List.foldl_nil]
        have hv := ih (n / 10) (by omega)
        simp only [digitsVal] at hv
        rw [hv, digitChar_val _ (Nat.mod_lt n (by omega))]
        omega

theorem dropWhile_eq_self {p : Char → Bool} :
    ∀ cs : List Char, (∀ c ∈ cs, p c = false) → cs.dropWhile p = cs := by
  intro cs h
  cases cs with
  | nil => rfl
  | cons c cs =>
      rw [List.dropWhile_cons_of_neg]
      simp [h c (List.mem_cons_self c cs)]

theorem pyTrim_no_ws (cs : List Char) (h : ∀ c ∈ cs, c.isWhitespace = false) :
    pyTrim cs = cs := by
  unfold pyTrim
  rw [dropWhile_eq_self cs h, dropWhile_eq_self cs.reverse (fun c hc => h c (List.mem_reverse.mp hc)),
    List.reverse_reverse]

theorem pyStrNat_mem (n : Nat) : ∀ c ∈ (pyStrNat n).data, c ∈ digits10 :=
  digitsLoop_mem (n + 1) n [] (by intro c hc; cases hc)

theorem pyInt_pyStrNat (n : Nat) : pyInt (pyStrNat n) = some (n : Int) := by
  have hmem := pyStrNat_mem n
  have htrim : pyTrim (pyStrNat n).data = (pyStrNat n).data :=
    pyTrim_no_ws _ (fun c hc => digits10_not_ws c (hmem c hc))
  have hne : (pyStrNat n).data ≠ [] := digitsLoop_ne_nil n
  have hparse : parseDigitpart (pyStrNat n).data = some (digitsVal (pyStrNat n).data) :=
    parseDigitpart_digits _ hne (fun c hc => digits10_isDigit c (hmem c hc))
  have hval : digitsVal (pyStrNat n).data = n := digitsLoop_val n
  unfold pyInt
  rw [htrim]
  rcases hds : (pyStrNat n).data with _ | ⟨c, cs⟩
  · exact absurd hds hne
  · have hcmem : c ∈ digits10 := hmem c (hds ▸ List.mem_cons_self c cs)
    have hcp : c ≠ '+' := by rintro rfl; revert hcmem; decide
    have hcm : c ≠ '-' := by rintro rfl; revert hcmem; decide
    rw [hds] at hparse hval
    split
    · rename_i heq
      exact absurd (List.cons.injEq .. ▸ heq :
        c = '+' ∧ _) (by rintro ⟨rfl, -⟩; exact hcp rfl)
    · rename_i heq
      exact absurd (List.cons.injEq .. ▸ heq :
        c = '-' ∧ _) (by rintro ⟨rfl, -⟩; exact hcm rfl)
    · rw [hparse, hval]
      rfl

theorem pyInt_pyStrInt (d : Int) : pyInt (pyStrInt d) = some d := by
  cases d with
  | ofNat n => exact pyInt_pyStrNat n
  | negSucc n =>
      have hmem := pyStrNat_mem (n + 1)
      have hdata : (pyStrInt (Int.negSucc n)).data = '-' :: (pyStrNat (n + 1)).data := rfl
      have hne : (pyStrNat (n + 1)).data ≠ [] := digitsLoop_ne_nil (n + 1)
      have hparse : parseDigitpart (pyStrNat (n + 1)).data =
          some (digitsVal (pyStrNat (n + 1)).data) :=
        parseDigitpart_digits _ hne (fun c hc => digits10_isDigit c (hmem c hc))
      have htrim : pyTrim ('-' :: (pyStrNat (n + 1)).data) = '-' :: (pyStrNat (n + 1)).data := by
        apply pyTrim_no_ws
        intro c hc
        rcases List.mem_cons.mp hc with rfl | h
        · decide
        · exact digits10_not_ws c (hmem c h)
      unfold pyInt
      rw [hdata, htrim]
      simp only [hparse, digitsLoop_val (n + 1), Option.map_some]
      rw [Int.negSucc_eq]
      have hv : digitsVal (pyStrNat (n + 1)).data = n + 1 := digitsLoop_val (n + 1)
      rw [hv]
      simp

/-! ### Helper lemmas about `get_config` -/

theorem configKey_some_ne_empty (name : String) (env : Env) (h : name ≠ "") :
    configKey (some name) env = pyLower name := by
  simp [configKey, pyOr, h]

theorem configKey_none_unset (env : Env) (h : env "FLASK_ENV" = none) :
    configKey none env = "default" := by
  simp [configKey, pyOr, h]
  decide

theorem get_config_production (env : Env) (fs : FS) :
    get_config (some "production") env fs =
      .ok ⟨.production, (ensure_dirs (configOf .production env) fs).1,
           (ensure_dirs (configOf .production env) fs).2,
           if (ProductionConfig env).SECRET_KEY = "dev-key-change-in-prod"
           then [secretWarning] else []⟩ := rfl

theorem get_config_development (env : Env) (fs : FS) :
    get_config (some "development") env fs =
      .ok ⟨.development, (ensure_dirs (configOf .development env) fs).1,
           (ensure_dirs (configOf .development env) fs).2, []⟩ := rfl

theorem ensure_production_safety_no_oserror (cls : ConfigClass) (env : Env) (p : String) :
    ensure_production_safety cls env ≠ .error (.osError p) := by
  cases cls <;> simp [ensure_production_safety]

theorem foldl_mkdir_noop (ds : List String) :
    ∀ (fs : FS) (logs : List String), (∀ d ∈ ds, d ∈ fs.existing) →
      ds.foldl
        (fun st p =>
          match mkdir_p st.1 p with
          | .ok fs2 => (fs2, st.2)
          | .error _ => (st.1, st.2 ++ ["Failed to create directory " ++ p]))
        (fs, logs) = (fs, logs) := by
  induction ds with
  | nil => intro fs logs _; rfl
  | cons d ds ih =>
      intro fs logs h
      have hd : d ∈ fs.existing := h d (List.mem_cons_self d ds)
      have hm : mkdir_p fs d = .ok fs := by simp [mkdir_p, hd]
      rw [List.foldl_cons]
      simp only [hm]
      exact ih fs logs (fun x hx => h x (List.mem_cons_of_mem d hx))

theorem ensure_dirs_noop (c : Config) (fs : FS)
    (h : ∀ d ∈ requiredDirs c, d ∈ fs.existing) :
    ensure_dirs c fs = (fs, []) :=
  foldl_mkdir_noop (requiredDirs c) fs [] h


/-! ### Claim theorems -/

/-- C1, counterexample: with `FLASK_DEBUG="0"` and default `true`,
`_bool_env` returns `false`, not the supplied default, even though
`"0"` is outside the truthy set — refuting the claim that any other
string yields the default. -/
theorem C1_counterexample :
    ["1", "true", "yes", "on"].contains (pyLower "0") = false ∧
    _bool_env (fun n => if n = "FLASK_DEBUG" then some "0" else none) "FLASK_DEBUG" true
      = false ∧
    (false : Bool) ≠ true := by
  decide

/-- C1, amended: a value in `{"1","true","yes","on"}` compared
case-insensitively makes `_bool_env` return `true`; any other string
makes it return `false`; the supplied default is returned only when the
variable is unset. -/
theorem C1_bool_env (env : Env) (name : String) (default : Bool) :
    (env name = none → _bool_env env name default = default) ∧
    (∀ v, env name = some v →
      (_bool_env env name default = true ↔ pyLower v ∈ ["1", "true", "yes", "on"])) := by
  constructor
  · intro h
    simp [_bool_env, h]
  · intro v h
    simp [_bool_env, h, List.contains_iff_exists_mem_beq, beq_iff_eq]

/-- C1, witness: unset variable yields the default; `"YES"` yields
`true`. -/
theorem C1_bool_env_witness :
    _bool_env emptyEnv "FLASK_DEBUG" true = true ∧
    _bool_env (fun n => if n = "FLASK_DEBUG" then some "YES" else none) "FLASK_DEBUG" false
      = true := by
  constructor
  · exact (C1_bool_env emptyEnv "FLASK_DEBUG" true).1 rfl
  · exact ((C1_bool_env (fun n => if n = "FLASK_DEBUG" then some "YES" else none)
      "FLASK_DEBUG" false).2 "YES" rfl).mpr (by decide)

/-- C2, counterexample: the empty string is not a registry key, yet with
`FLASK_ENV=production` in the environment `get_config("")` resolves to
the production profile while `get_config("default")` resolves to the
development profile — refuting the claim for the name `""`. -/
theorem C2_counterexample :
    config_by_name.lookup (pyLower "") = none ∧
    (get_config (some "") (fun n => if n = "FLASK_ENV" then some "production" else none)
        fs0).toOption.map (fun r => r.cfg) = some .production ∧
    (get_config (some "default") (fun n => if n = "FLASK_ENV" then some "production" else none)
        fs0).toOption.map (fun r => r.cfg) = some .development ∧
    ConfigClass.production ≠ ConfigClass.development := by
  decide

/-- C2, amended: for every non-empty name string whose lowercasing is
not a registry key, `get_config` resolves to the same class as resolving
the name `"default"`, and neither call raises. (The empty string instead
falls back to `FLASK_ENV`.) -/
theorem C2_unknown_name (name : String) (env : Env) (fs : FS)
    (h1 : name ≠ "") (h2 : config_by_name.lookup (pyLower name) = none) :
    ∃ r1 r2, get_config (some name) env fs = .ok r1 ∧
      get_config (some "default") env fs = .ok r2 ∧ r1.cfg = r2.cfg := by
  have hk : configKey (some name) env = pyLower name := configKey_some_ne_empty name env h1
  have hcls : resolveClass (some name) env = .development := by
    unfold resolveClass
    rw [hk, h2]
    rfl
  have hkp : configKey (some name) env ≠ "production" := by
    rw [hk]
    intro he
    rw [he] at h2
    simp [config_by_name] at h2
  have hgc1 : get_config (some name) env fs =
      .ok ⟨.development, (ensure_dirs (configOf .development env) fs).1,
           (ensure_dirs (configOf .development env) fs).2, []⟩ := by
    simp only [get_config, hcls]
    rw [if_neg hkp]
  exact ⟨_, _, hgc1, get_config_development env fs, rfl⟩

/-- C2, witness: the unknown name `"staging"` resolves to the same class
as `"default"`. -/
theorem C2_unknown_name_witness :
    ∃ r1 r2, get_config (some "staging") emptyEnv fs0 = .ok r1 ∧
      get_config (some "default") emptyEnv fs0 = .ok r2 ∧ r1.cfg = r2.cfg :=
  C2_unknown_name "staging" emptyEnv fs0 (by decide) (by decide)

/-- C3, counterexample: with `FLASK_ENV` set to the empty string and no
name argument, the code uses the key `"default"`, not the variable's
value `""` — refuting the claim that the variable's value is used as the
lookup name whenever the variable is set. -/
theorem C3_counterexample :
    (fun n => if n = "FLASK_ENV" then some "" else none : Env) "FLASK_ENV" = some "" ∧
    configKey none (fun n => if n = "FLASK_ENV" then some "" else none) = "default" ∧
    ("default" : String) ≠ pyLower "" := by
  decide

/-- C3, amended: with no name argument, `get_config`'s registry key is
the lowercased value of `FLASK_ENV` when that variable is set to a
non-empty string, and the literal `"default"` when it is unset or set to
the empty string. -/
theorem C3_key_fallback (env : Env) :
    (∀ v, env "FLASK_ENV" = some v → v ≠ "" → configKey none env = pyLower v) ∧
    (env "FLASK_ENV" = none → configKey none env = "default") ∧
    (env "FLASK_ENV" = some "" → configKey none env = "default") := by
  refine ⟨?_, ?_, ?_⟩
  · intro v h hv
    simp [configKey, pyOr, h, hv]
  · intro h
    simp [configKey, pyOr, h]
    decide
  · intro h
    simp [configKey, pyOr, h]
    decide

/-- C3, witness: `FLASK_ENV=PRODUCTION` gives the key `"production"`;
an unset `FLASK_ENV` gives the key `"default"`. -/
theorem C3_key_fallback_witness :
    configKey none (fun n => if n = "FLASK_ENV" then some "PRODUCTION" else none)
      = pyLower "PRODUCTION" ∧
    configKey none emptyEnv = "default" := by
  constructor
  · exact (C3_key_fallback (fun n => if n = "FLASK_ENV" then some "PRODUCTION" else none)).1
      "PRODUCTION" rfl (by decide)
  · exact (C3_key_fallback emptyEnv).2.1 rfl

/-- C4: `_int_env` returns the supplied default when the variable is
unset or set to a string `int()` rejects, and the parsed integer when
`int()` accepts the string; no error escapes in any case. -/
theorem C4_int_env (env : Env) (name : String) (default : Int) :
    (env name = none → _int_env env name default = default) ∧
    (∀ v, env name = some v → pyInt v = none → _int_env env name default = default) ∧
    (∀ v k, env name = some v → pyInt v = some k → _int_env env name default = k) := by
  refine ⟨?_, ?_, ?_⟩
  · intro h
    simp [_int_env, h, pyInt_pyStrInt]
  · intro v h hp
    simp [_int_env, h, hp]
  · intro v k h hp
    simp [_int_env, h, hp]

/-- C4, witness: unset and non-numeric values give the default; a
numeric value gives its parse. -/
theorem C4_int_env_witness :
    _int_env emptyEnv "MAX_CONTENT_LENGTH" 10485760 = 10485760 ∧
    _int_env (fun n => if n = "MAX_CONTENT_LENGTH" then some "abc" else none)
      "MAX_CONTENT_LENGTH" 7 = 7 ∧
    _int_env (fun n => if n = "MAX_CONTENT_LENGTH" then some "42" else none)
      "MAX_CONTENT_LENGTH" 7 = 42 := by
  refine ⟨?_, ?_, ?_⟩
  · exact (C4_int_env emptyEnv "MAX_CONTENT_LENGTH" 10485760).1 rfl
  · exact (C4_int_env (fun n => if n = "MAX_CONTENT_LENGTH" then some "abc" else none)
      "MAX_CONTENT_LENGTH" 7).2.1 "abc" rfl (by decide)
  · exact (C4_int_env (fun n => if n = "MAX_CONTENT_LENGTH" then some "42" else none)
      "MAX_CONTENT_LENGTH" 7).2.2 "42" 42 rfl (by decide)

/-- C5: when the production profile's secret key equals the insecure
default literal, `get_config("production")` logs exactly the warning,
still returns the production class, and does not raise. -/
theorem C5_insecure_secret_warns (env : Env) (fs : FS)
    (h : (ProductionConfig env).SECRET_KEY = "dev-key-change-in-prod") :
    ∃ r, get_config (some "production") env fs = .ok r ∧ r.cfg = .production ∧
      r.warnLogs = [secretWarning] := by
  refine ⟨⟨.production, (ensure_dirs (configOf .production env) fs).1,
    (ensure_dirs (configOf .production env) fs).2, [secretWarning]⟩, ?_, rfl, rfl⟩
  rw [get_config_production env fs, if_pos h]

/-- C5, witness: with no environment overrides the secret key is the
insecure default and the warning is logged. -/
theorem C5_insecure_secret_warns_witness :
    ∃ r, get_config (some "production") emptyEnv fs0 = .ok r ∧ r.cfg = .production ∧
      r.warnLogs = [secretWarning] :=
  C5_insecure_secret_warns emptyEnv fs0 (by decide)

/-- C6: resolving `"production"` yields secure cookie flags true, and
resolving `"development"` yields secure cookie flags false, under every
environment. -/
theorem C6_cookie_flags (env : Env) (fs : FS) :
    ∃ rp rd, get_config (some "production") env fs = .ok rp ∧
      get_config (some "development") env fs = .ok rd ∧
      (configOf rp.cfg env).SESSION_COOKIE_SECURE = true ∧
      (configOf rp.cfg env).REMEMBER_COOKIE_SECURE = true ∧
      (configOf rd.cfg env).SESSION_COOKIE_SECURE = false ∧
      (configOf rd.cfg env).REMEMBER_COOKIE_SECURE = false :=
  ⟨_, _, get_config_production env fs, get_config_development env fs, rfl, rfl, rfl, rfl⟩

/-- C7: with `FLASK_ENV` unset, `get_config(None)` resolves to the
development class, whose `DEBUG` setting is true. -/
theorem C7_default_is_development (env : Env) (fs : FS) (h : env "FLASK_ENV" = none) :
    ∃ r, get_config none env fs = .ok r ∧ r.cfg = .development ∧
      (configOf r.cfg env).DEBUG = true := by
  have hk : configKey none env = "default" := configKey_none_unset env h
  have hcls : resolveClass none env = .development := by
    unfold resolveClass
    rw [hk]
    rfl
  refine ⟨⟨.development, (ensure_dirs (configOf .development env) fs).1,
    (ensure_dirs (configOf .development env) fs).2, []⟩, ?_, rfl, rfl⟩
  simp only [get_config, hcls, hk]
  rw [if_neg (by decide : ¬ ("default" : String) = "production")]

/-- C7, witness: the empty environment resolves to development with
debugging on. -/
theorem C7_default_is_development_witness :
    ∃ r, get_config none emptyEnv fs0 = .ok r ∧ r.cfg = .development ∧
      (configOf r.cfg emptyEnv).DEBUG = true :=
  C7_default_is_development emptyEnv fs0 rfl

/-- C8: `get_config` is idempotent. When the profile's directories
already exist, a call leaves the filesystem unchanged with no
directory-failure logs, and calling again on the resulting state returns
the very same result — in particular the same class with the same
setting values. -/
theorem C8_idempotent (name : Option String) (env : Env) (fs : FS)
    (hex : ∀ d ∈ requiredDirs (configOf (resolveClass name env) env), d ∈ fs.existing) :
    ∃ r, get_config name env fs = .ok r ∧ r.fs = fs ∧ r.dirLogs = [] ∧
      get_config name env r.fs = .ok r ∧
      configOf r.cfg env = configOf (resolveClass name env) env := by
  have hed : ensure_dirs (configOf (resolveClass name env) env) fs = (fs, []) :=
    ensure_dirs_noop _ fs hex
  by_cases hk : configKey name env = "production"
  · have hcls : resolveClass name env = .production := by
      unfold resolveClass
      rw [hk]
      rfl
    rw [hcls] at hed
    have hgc : get_config name env fs =
        .ok ⟨.production, fs, [],
             if (ProductionConfig env).SECRET_KEY = "dev-key-change-in-prod"
             then [secretWarning] else []⟩ := by
      simp only [get_config, hcls, hk, hed, if_pos, ensure_production_safety]
    exact ⟨_, hgc, rfl, rfl, hgc, by rw [hcls]⟩
  · have hgc : get_config name env fs =
        .ok ⟨resolveClass name env, fs, [], []⟩ := by
      simp only [get_config, hed]
      rw [if_neg hk]
    exact ⟨_, hgc, rfl, rfl, hgc, rfl⟩

/-- C8, witness: on a filesystem already holding the development
profile's directories, resolving with no name is idempotent and logs no
failure. -/
theorem C8_idempotent_witness :
    ∃ r, get_config none emptyEnv fsDevDirs = .ok r ∧ r.fs = fsDevDirs ∧ r.dirLogs = [] ∧
      get_config none emptyEnv r.fs = .ok r ∧
      configOf r.cfg emptyEnv = configOf (resolveClass none emptyEnv) emptyEnv :=
  C8_idempotent none emptyEnv fsDevDirs (by decide)

/-- C9: passing the empty string as the name behaves exactly like
passing no name: both fall back to `FLASK_ENV` and then `"default"`. -/
theorem C9_empty_name (env : Env) (fs : FS) :
    get_config (some "") env fs = get_config none env fs := rfl

/-- C10: `get_config` never raises — for every name, environment and
filesystem state it returns a profile: directory-creation exceptions are
swallowed inside `ensure_dirs`, and `AttributeError` from the safety
check is caught and ignored. -/
theorem C10_total (name : Option String) (env : Env) (fs : FS) :
    ∃ r, get_config name env fs = .ok r := by
  simp only [get_config]
  split
  · cases hcls : resolveClass name env with
    | development =>
        simp only [ensure_production_safety]
        exact ⟨_, rfl⟩
    | production =>
        simp only [ensure_production_safety]
        exact ⟨_, rfl⟩
  · exact ⟨_, rfl⟩
